import Mathlib

/-!
Verification of the cfi-cleaner repository (src/app.py and src/clean_cfi.py)
against its natural-language specification.

The Python code is shallowly embedded:
* Python `dict` values are modelled as insertion-ordered association lists
  (`Dict α`); Python dictionaries always have unique keys, which the
  association-list operations preserve.
* Python exceptions (ValueError, TypeError, IndexError, KeyError,
  AttributeError, StopIteration) are modelled with `Except PyErr`; an
  `Except.error` value corresponds to an uncaught exception escaping the
  function, while an `Except.ok` value is a normal return.
* `datetime` values are modelled as day numbers (days since 1970-01-01,
  computed by the standard civil-calendar conversion); `timedelta(days = n)`
  arithmetic is integer addition, and `datetime` comparison is integer
  comparison, exactly as in Python for pure dates.
-/

/-- A Python dict with string keys, modelled as an insertion-ordered
association list.  Python dicts have unique keys; the operations below
preserve that invariant (lookup takes the first match). -/
abbrev Dict (α : Type) : Type := List (String × α)

/-- Lookup of `d[k]` (as `Option`): first entry whose key equals `k`. -/
def dictLookup {α : Type} : Dict α → String → Option α
  | [], _ => none
  | p :: d, k => if p.1 = k then some p.2 else dictLookup d k

/-- Python `k in d`. -/
def dictContains {α : Type} (d : Dict α) (k : String) : Bool :=
  (dictLookup d k).isSome

/-- Python `d[k] = v`: replace the value of an existing key in place
(keeping its position), or append a fresh key at the end. -/
def dictSet {α : Type} : Dict α → String → α → Dict α
  | [], k, v => [(k, v)]
  | p :: d, k, v => if p.1 = k then (k, v) :: d else p :: dictSet d k v

/-- Python `d.update(e)`: assign every entry of `e` into `d`, in order. -/
def dictUpdate {α : Type} (d : Dict α) : Dict α → Dict α
  | [] => d
  | p :: e => dictUpdate (dictSet d p.1 p.2) e

/-- Python `list(d.keys())` (insertion order). -/
def dictKeys {α : Type} (d : Dict α) : List String :=
  d.map Prod.fst

/-- Lookup of a field inside a two-level store: `s[k][f]` as an `Option`. -/
def lookup2 (s : Dict (Dict String)) (k f : String) : Option String :=
  match dictLookup s k with
  | some m => dictLookup m f
  | none => none

/-- A truth store: DateRange key to field map (both Python dicts). -/
abbrev TruthStore : Type := Dict (Dict String)

/-- Well-formedness that every store produced by Python satisfies: the outer
dict has no duplicate keys and neither does any inner field map. -/
def WFStore (s : TruthStore) : Prop :=
  (dictKeys s).Nodup ∧ ∀ p ∈ s, (dictKeys p.2).Nodup

instance (s : TruthStore) : Decidable (WFStore s) := by
  unfold WFStore
  infer_instance

/-- src/app.py `update_truth_with_new_data` (the value it returns).
The Python loop `for date_range, values in new_data.items()` with
`updated_data[date_range].update(values)` for common keys and
`updated_data[date_range] = values` for fresh keys is rendered as a
recursion over the entries of `new_data` acting on the accumulated store. -/
def update_truth_with_new_data (truth_data : TruthStore) : TruthStore → TruthStore
  | [] => truth_data
  | (date_range, values) :: rest =>
    match dictLookup truth_data date_range with
    | some inner =>
        update_truth_with_new_data (dictSet truth_data date_range (dictUpdate inner values)) rest
    | none =>
        update_truth_with_new_data (dictSet truth_data date_range values) rest

/-- Contents of the caller-supplied `truth_data` after
`update_truth_with_new_data` returns.  The function starts from
`truth_data.copy()`, which copies only the outer dict: the inner field maps
are shared, so `updated_data[date_range].update(values)` mutates the
caller's inner dict for every key present in both stores.  Modelled for the
well-formed case (unique keys, distinct inner dict objects), which every
dict produced by Python satisfies. -/
def truth_data_after_merge (truth_data new_data : TruthStore) : TruthStore :=
  truth_data.map (fun p =>
    match dictLookup new_data p.1 with
    | some values => (p.1, dictUpdate p.2 values)
    | none => p)

/-- Conflict-freedom of two new-data mappings: no field of any common
DateRange is supplied by both.  Stated as a boolean so that it is checkable
on concrete stores. -/
def noConflict (a b : TruthStore) : Bool :=
  a.all (fun p =>
    match dictLookup b p.1 with
    | some bm => p.2.all (fun q => !(dictContains bm q.1))
    | none => true)

/-! Lemmas about the dict operations. -/

/-- Python exceptions that the embedded code can raise; an `Except.error`
carrying one of these models an uncaught exception escaping the function. -/
inductive PyErr : Type
  | valueError (msg : String)
  | typeError (msg : String)
  | indexError
  | keyError (k : String)
  | attributeError
  | stopIteration

deriving DecidableEq, Repr

deriving instance DecidableEq for Except

/-- Whitespace for Python str.strip(). -/
def isPySpace (ch : Char) : Bool :=
  ch == ' ' || ch == '\t' || ch == '\n' || ch == '\r' || ch == '\x0b' || ch == '\x0c'

/-- Python s.strip(). -/
def pyStrip (s : String) : String :=
  String.mk (((s.data.dropWhile isPySpace).reverse.dropWhile isPySpace).reverse)

/-- Python s.upper() (the labels involved are ASCII). -/
def pyUpper (s : String) : String := String.mk (s.data.map Char.toUpper)

/-- Python s.lower() (the titles involved are ASCII). -/
def pyLower (s : String) : String := String.mk (s.data.map Char.toLower)

/-- Python value.replace(",", "") as used at clean_cfi.py line 106. -/
def removeCommas (s : String) : String :=
  String.mk (s.data.filter (fun ch => ch != ','))

/-- Python s.split(c) for a single-character separator (accumulator holds
the current chunk reversed). -/
def splitCharAux (c : Char) : List Char → List Char → List String
  | [], acc => [String.mk acc.reverse]
  | x :: xs, acc =>
    if x = c then String.mk acc.reverse :: splitCharAux c xs []
    else splitCharAux c xs (x :: acc)

/-- Python s.split(c). -/
def splitChar (c : Char) (s : String) : List String := splitCharAux c s.data []

/-- Value of a digit run that may contain single underscores between
digits (the Python-3 int() grammar); `none` when the run is malformed. -/
def digitsValU : List Char → Nat → Option Nat
  | [], acc => some acc
  | ch :: cs, acc =>
    if ch.isDigit then digitsValU cs (acc * 10 + (ch.toNat - 48))
    else if ch = '_' then
      match cs with
      | c2 :: cs2 =>
        if c2.isDigit then digitsValU cs2 (acc * 10 + (c2.toNat - 48)) else none
      | [] => none
    else none

/-- Digits part of Python int(): must start with a digit. -/
def parseUnsignedInt (cs : List Char) : Option Nat :=
  match cs with
  | ch :: _ => if ch.isDigit then digitsValU cs 0 else none
  | [] => none

/-- Python int(s): optional surrounding whitespace, optional sign, digits
with optional single underscores; `none` models the ValueError case. -/
def pyParseInt (s : String) : Option Int :=
  match (pyStrip s).data with
  | '+' :: cs => (parseUnsignedInt cs).map (fun n => (n : Int))
  | '-' :: cs => (parseUnsignedInt cs).map (fun n => -(n : Int))
  | cs => (parseUnsignedInt cs).map (fun n => (n : Int))

/-- src/clean_cfi.py `convert_to_int`: int(value), with the ValueError
caught and turned into None. -/
def convert_to_int (value : String) : Option Int := pyParseInt value

/-- Gregorian leap year (as in Python's calendar). -/
def isLeap (y : Int) : Bool :=
  y % 4 == 0 && (y % 100 != 0 || y % 400 == 0)

/-- Days in a month, used to validate strptime results exactly as the
datetime constructor does. -/
def daysInMonth (y m : Int) : Int :=
  if m = 2 then (if isLeap y then 29 else 28)
  else if m = 4 ∨ m = 6 ∨ m = 9 ∨ m = 11 then 30
  else 31

/-- Day number (days since 1970-01-01) of a calendar date; the standard
civil-from-days algorithm with truncating division throughout (all
intermediate dividends are non-negative).  Models a Python datetime. -/
def civilToDays (y m d : Int) : Int :=
  let y2 := if m ≤ 2 then y - 1 else y
  let era := (if 0 ≤ y2 then y2 else y2 - 399) / 400
  let yoe := y2 - era * 400
  let doy := (153 * (m + (if 2 < m then -3 else 9)) + 2) / 5 + d - 1
  let doe := yoe * 365 + yoe / 4 - yoe / 100 + doy
  era * 146097 + doe - 719468

/-- (year, month, day) of a day number; inverse of `civilToDays`. -/
def daysToCivil (z0 : Int) : Int × Int × Int :=
  let z := z0 + 719468
  let era := (if 0 ≤ z then z else z - 146096) / 146097
  let doe := z - era * 146097
  let yoe := (doe - doe / 1460 + doe / 36524 - doe / 146096) / 365
  let y := yoe + era * 400
  let doy := doe - (365 * yoe + yoe / 4 - yoe / 100)
  let mp := (5 * doy + 2) / 153
  let d := doy - (153 * mp + 2) / 5 + 1
  let m := if mp < 10 then mp + 3 else mp - 9
  (if m ≤ 2 then y + 1 else y, m, d)

/-- Digit grouping for the Python format spec ","; input is the reversed
digit list, and a comma is inserted after every three digits. -/
def commaGroup : List Char → List Char
  | [] => []
  | [a] => [a]
  | [a, b] => [a, b]
  | [a, b, c] => [a, b, c]
  | a :: b :: c :: rest => a :: b :: c :: ',' :: commaGroup rest

/-- Python f-string thousands formatting f"{n:,}". -/
def commaFormat (n : Int) : String :=
  (if n < 0 then "-" else "") ++
    String.mk (List.reverse (commaGroup (List.reverse (toString n.natAbs).data)))

/-- Value of an all-digits string. -/
def digitsToNat (cs : List Char) : Option Nat :=
  if cs = [] then none
  else if cs.all Char.isDigit then
    some (cs.foldl (fun a ch => a * 10 + (ch.toNat - 48)) 0)
  else none

/-- Python strptime %Y field: exactly four digits; datetime requires
year >= 1. -/
def parseY4 (s : String) : Option Int :=
  if s.data.length = 4 then
    match digitsToNat s.data with
    | some n => if 1 ≤ n then some ((n : Int)) else none
    | none => none
  else none

/-- Python strptime %m field: one or two digits, value 1..12. -/
def parseM (s : String) : Option Int :=
  if s.data.length = 1 ∨ s.data.length = 2 then
    match digitsToNat s.data with
    | some n => if 1 ≤ n ∧ n ≤ 12 then some ((n : Int)) else none
    | none => none
  else none

/-- Python strptime %d field: one or two digits, value 1..31; the exact
day-of-month bound is checked against the month separately. -/
def parseD (s : String) : Option Int :=
  if s.data.length = 1 ∨ s.data.length = 2 then
    match digitsToNat s.data with
    | some n => if 1 ≤ n ∧ n ≤ 31 then some ((n : Int)) else none
    | none => none
  else none

/-- datetime.strptime(s, "%m/%d/%Y") as an Option: the three fields
separated by literal slashes, whole string consumed, calendar-valid. -/
def parseMDY (s : String) : Option (Int × Int × Int) :=
  match splitChar '/' s with
  | [ms, ds2, ys] =>
    match parseM ms, parseD ds2, parseY4 ys with
    | some m, some d, some y =>
        if d ≤ daysInMonth y m then some (y, m, d) else none
    | _, _, _ => none
  | _ => none

/-- datetime.strptime(s, "%Y-%m-%d") as an Option. -/
def parseYMD (s : String) : Option (Int × Int × Int) :=
  match splitChar '-' s with
  | [ys, ms, ds2] =>
    match parseY4 ys, parseM ms, parseD ds2 with
    | some y, some m, some d =>
        if d ≤ daysInMonth y m then some (y, m, d) else none
    | _, _, _ => none
  | _ => none

/-- Zero-padded decimal rendering for strftime fields. -/
def padNum (width : Nat) (n : Int) : String :=
  let s := toString n
  if s.data.length < width then
    String.mk (List.replicate (width - s.data.length) '0') ++ s
  else s

/-- datetime.strftime "%Y-%m-%d". -/
def formatYMD (y m d : Int) : String :=
  padNum 4 y ++ "-" ++ padNum 2 m ++ "-" ++ padNum 2 d

/-- strftime "%Y-%m-%d" of a day number. -/
def formatDay (z : Int) : String :=
  let c := daysToCivil z
  formatYMD c.1 c.2.1 c.2.2

/-- Error-propagating map over a list, evaluating left to right and
aborting at the first exception, like the Python loops it models. -/
def exceptMapM {α β : Type} (f : α → Except PyErr β) : List α → Except PyErr (List β)
  | [] => Except.ok []
  | x :: xs =>
    match f x with
    | Except.error e => Except.error e
    | Except.ok b =>
      match exceptMapM f xs with
      | Except.error e => Except.error e
      | Except.ok bs => Except.ok (b :: bs)

/-- src/clean_cfi.py `is_table_header`: first cell non-empty after
stripping, every other cell empty after stripping. -/
def is_table_header (row : List String) : Bool :=
  match row with
  | [] => false
  | c :: rest => pyStrip c != "" && rest.all (fun x => pyStrip x == "")

/-- Loop of src/clean_cfi.py `id_all_cfi_table`, carrying the enumerate
index.  `sim` stands for the external library call `fuzz.partial_ratio`
(an integer score 0..100); fuzzywuzzy is a third-party library, not part
of this repository, so the scoring function is kept abstract and
constrained per claim. -/
def id_all_cfi_table_go (sim : String → String → Nat) :
    List (List String) → Nat → Option Nat
  | [], _ => none
  | r :: rs, i =>
    if is_table_header r then
      if 80 < sim (pyLower (r.headD "")) (pyLower "All Credible Fear Cases") then
        some i
      else id_all_cfi_table_go sim rs (i + 1)
    else id_all_cfi_table_go sim rs (i + 1)

/-- src/clean_cfi.py `id_all_cfi_table`. -/
def id_all_cfi_table (sim : String → String → Nat)
    (rows : List (List String)) : Option Nat :=
  id_all_cfi_table_go sim rows 0

/-- Python `row[0]`: IndexError on an empty row. -/
def rowZero (r : List String) : Except PyErr String :=
  match r.head? with
  | some c => Except.ok c
  | none => Except.error PyErr.indexError

/-- One step of the comprehension `[row for row in cfi_table if
row[0].strip().upper() == LBL]`: evaluating row[0] can raise. -/
def rowPair (r : List String) : Except PyErr (String × List String) :=
  match rowZero r with
  | Except.ok c => Except.ok (c, r)
  | Except.error e => Except.error e

/-- The comprehension of clean_cfi.py lines 96-97 plus the trailing `[0]`:
first row whose stripped upper-cased label equals `lbl`; IndexError if any
row is empty (the comprehension evaluates row[0] for every row) or if no
row matches (indexing an empty list). -/
def findLabelRow (tbl : List (List String)) (lbl : String) :
    Except PyErr (List String) :=
  match exceptMapM rowPair tbl with
  | Except.error e => Except.error e
  | Except.ok pairs =>
    match (pairs.filter (fun p => pyUpper (pyStrip p.1) == lbl)).head? with
    | some p => Except.ok p.2
    | none => Except.error PyErr.indexError

/-- The six fixed category labels of src/clean_cfi.py. -/
def categories : List String :=
  ["Case Receipts", "All Decisions", "Fear Established_Persecution (Y)",
   "Fear Established_Torture (Y)", "Fear Not Established (N)",
   "Administratively Closed"]

/-- Category-row loop of clean_cfi.py lines 104-106: assign, for each row
whose stripped label is a known category, the whole converted row (every
cell through convert_to_int after comma removal and stripping). -/
def categoryDataAux (acc : Dict (List (Option Int))) :
    List (List String) → Except PyErr (Dict (List (Option Int)))
  | [] => Except.ok acc
  | r :: rs =>
    match rowZero r with
    | Except.error e => Except.error e
    | Except.ok c =>
      if categories.contains (pyStrip c) then
        categoryDataAux
          (dictSet acc (pyStrip c)
            (r.map (fun v => convert_to_int (pyStrip (removeCommas v))))) rs
      else categoryDataAux acc rs

/-- Category extraction stage (starts from the empty dict). -/
def categoryData (tbl : List (List String)) :
    Except PyErr (Dict (List (Option Int))) :=
  categoryDataAux [] tbl

/-- Python dict(zip(keys, values)) built by repeated assignment (a later
duplicate key overwrites in place). -/
def dictOfPairs {α : Type} (ps : List (String × α)) : Dict α :=
  ps.foldl (fun d p => dictSet d p.1 p.2) []

/-- One reformatted record of clean_cfi.py lines 123-131: the dict literal
with the six fixed output fields, as a record. -/
structure MetricRow where
  dateRange : String
  caseReceipts : String
  allDecisions : String
  fearEstablished : String
  fearNotEstablished : String
  closings : String

deriving DecidableEq, Repr

/-- Python `data[cat][k]` where `data` is the defaultdict(list): a missing
category produces the default empty list and `[][k]` raises TypeError for
a string index; a missing key in a present category dict raises KeyError. -/
def getCat (d2 : Dict (Dict (Option Int))) (cat k : String) :
    Except PyErr (Option Int) :=
  match dictLookup d2 cat with
  | none => Except.error (PyErr.typeError "list indices must be integers")
  | some m =>
    match dictLookup m k with
    | none => Except.error (PyErr.keyError k)
    | some v => Except.ok v

/-- Python f-string f"{v:,}": formatting None raises TypeError. -/
def fmtCell (v : Option Int) : Except PyErr String :=
  match v with
  | none => Except.error (PyErr.typeError "unsupported format string passed to NoneType")
  | some n => Except.ok (commaFormat n)

/-- Python `a + b` where either operand may be None (TypeError). -/
def pyAdd (a b : Option Int) : Except PyErr Int :=
  match a, b with
  | some x, some y => Except.ok (x + y)
  | _, _ => Except.error (PyErr.typeError "unsupported operand type")

/-- datetime.strptime(s, "%m/%d/%Y"), raising ValueError on mismatch. -/
def strptimeMDY (s : String) : Except PyErr (Int × Int × Int) :=
  match parseMDY s with
  | some c => Except.ok c
  | none => Except.error (PyErr.valueError "time data does not match format")

/-- Python `xs[1]`. -/
def listGet1 (xs : List String) : Except PyErr String :=
  match xs[1]? with
  | some x => Except.ok x
  | none => Except.error PyErr.indexError

/-- One iteration of the reformat loop (clean_cfi.py lines 120-132) for a
non-sentinel DateRange key, in Python evaluation order: the fear sum first
(line 122), then the dict-literal fields (the two reformatted dates, then
each formatted category value). -/
def buildRow (d2 : Dict (Dict (Option Int))) (k : String) :
    Except PyErr MetricRow := do
  let p ← getCat d2 "Fear Established_Persecution (Y)" k
  let t ← getCat d2 "Fear Established_Torture (Y)" k
  let fear_established ← pyAdd p t
  let sd ← strptimeMDY ((splitChar '-' k).headD "")
  let s1 ← listGet1 (splitChar '-' k)
  let ed ← strptimeMDY s1
  let cr ← getCat d2 "Case Receipts" k
  let crs ← fmtCell cr
  let ad ← getCat d2 "All Decisions" k
  let ads ← fmtCell ad
  let fn ← getCat d2 "Fear Not Established (N)" k
  let fns ← fmtCell fn
  let ac ← getCat d2 "Administratively Closed" k
  let acs ← fmtCell ac
  Except.ok
    { dateRange := formatYMD sd.1 sd.2.1 sd.2.2 ++ "-" ++ formatYMD ed.1 ed.2.1 ed.2.2
      caseReceipts := crs
      allDecisions := ads
      fearEstablished := commaFormat fear_established
      fearNotEstablished := fns
      closings := acs }

/-- The reformat loop over the Case Receipts keys (clean_cfi.py lines
119-132), skipping the sentinel keys 'From-To' and '-' and aborting at the
first exception. -/
def build_rows (d2 : Dict (Dict (Option Int))) :
    List String → Except PyErr (List MetricRow)
  | [] => Except.ok []
  | k :: ks =>
    if k = "From-To" ∨ k = "-" then build_rows d2 ks
    else
      match buildRow d2 k with
      | Except.error e => Except.error e
      | Except.ok r =>
        match build_rows d2 ks with
        | Except.error e => Except.error e
        | Except.ok rs => Except.ok (r :: rs)

/-- The Record Reformatter stage: iterate data['Case Receipts'].keys();
if that category is absent the defaultdict default is the empty list,
which has no .keys(), so Python raises AttributeError. -/
def reformat_data (d2 : Dict (Dict (Option Int))) :
    Except PyErr (List MetricRow) :=
  match dictLookup d2 "Case Receipts" with
  | none => Except.error PyErr.attributeError
  | some m => build_rows d2 (dictKeys m)

/-- Lexicographic (year, month, day) order, matching datetime order. -/
def ymdLe (a b : Int × Int × Int) : Bool :=
  decide (a.1 < b.1) ||
    (decide (a.1 = b.1) &&
      (decide (a.2.1 < b.2.1) ||
        (decide (a.2.1 = b.2.1) && decide (a.2.2 ≤ b.2.2))))

/-- The sort key of clean_cfi.py line 135: strptime('%Y-%m-%d') applied to
split('-')[0] of the (ISO) range key; CPython computes the key of every
element before comparing, so any element raises even if no comparison is
needed. -/
def sortKeyRow (r : MetricRow) : Except PyErr ((Int × Int × Int) × MetricRow) :=
  match parseYMD ((splitChar '-' r.dateRange).headD "") with
  | some c => Except.ok (c, r)
  | none => Except.error (PyErr.valueError "time data does not match format")

/-- Keyed descending comparison for result.sort(..., reverse=True). -/
def rowDesc (a b : (Int × Int × Int) × MetricRow) : Prop :=
  ymdLe b.1 a.1 = true

instance : DecidableRel rowDesc := fun a b =>
  inferInstanceAs (Decidable (_ = true))

/-- clean_cfi.py lines 134-135: result.sort(key=..., reverse=True).
Python's sort is stable; a stable sort is uniquely determined by the
comparison, so it is modelled with insertion sort on the keyed list. -/
def sortStage (result : List MetricRow) : Except PyErr (List MetricRow) :=
  match exceptMapM sortKeyRow result with
  | Except.error e => Except.error e
  | Except.ok keyed => Except.ok ((List.insertionSort rowDesc keyed).map Prod.snd)

/-- The two values extract_credible_fear_data can return normally: the
empty list of the table-not-found branch (line 89), and Python None from
the success path, which has no return statement and falls off the end of
the function. -/
inductive PyRet : Type
  | emptyList
  | none

deriving DecidableEq, Repr

/-- The region of the located table (clean_cfi.py lines 80-86): rows
strictly after the matched header row, up to but excluding the next
header-like row. -/
def cfiRegion (rows : List (List String)) (i : Nat) : List (List String) :=
  ((rows.drop 2).drop (i + 1)).takeWhile (fun r => !is_table_header r)

/-- src/clean_cfi.py `extract_credible_fear_data` on the decoded grid of
CSV rows.  The two metadata rows are skipped first (next() on a shorter
file raises StopIteration).  The latin-1 read path is modelled; latin-1
decoding accepts every byte, so the utf-8 fallback branch is dead code.
The interactive IPython.embed() calls are diagnostics that do not touch
the data flow and are omitted.  The success path performs the sort of
line 135 and then falls off the end of the function, returning None. -/
def extract_credible_fear_data (sim : String → String → Nat)
    (rows : List (List String)) : Except PyErr PyRet :=
  if rows.length < 2 then Except.error PyErr.stopIteration
  else
    match id_all_cfi_table sim (rows.drop 2) with
    | Option.none => Except.ok PyRet.emptyList
    | some i =>
      let cfi_table := cfiRegion rows i
      match findLabelRow cfi_table "FROM" with
      | Except.error e => Except.error e
      | Except.ok fromRow =>
        match findLabelRow cfi_table "TO" with
        | Except.error e => Except.error e
        | Except.ok toRow =>
          let date_ranges := (fromRow.zip toRow).map
            (fun q => pyStrip q.1 ++ "-" ++ pyStrip q.2)
          match categoryData cfi_table with
          | Except.error e => Except.error e
          | Except.ok data =>
            let d2 := data.map (fun q => (q.1, dictOfPairs (date_ranges.zip q.2)))
            match reformat_data d2 with
            | Except.error e => Except.error e
            | Except.ok result =>
              match sortStage result with
              | Except.error e => Except.error e
              | Except.ok _ => Except.ok PyRet.none

/-! Inversion lemmas for the extraction pipeline. -/

/-- The shape of a successfully reformatted record for key `k`: all six
category values are present integers, both endpoints of the native-format
key parse, and the record carries the canonical-ISO key and
thousands-formatted fields, with `Fear Established (Y)` the sum of the
persecution and torture values and `Closings` the renamed
`Administratively Closed` value. -/
def ReformattedRowOk (d2 : Dict (Dict (Option Int))) (k : String) (r : MetricRow) : Prop :=
  ∃ p t sd ed s1,
    getCat d2 "Fear Established_Persecution (Y)" k = Except.ok (some p) ∧
    getCat d2 "Fear Established_Torture (Y)" k = Except.ok (some t) ∧
    parseMDY ((splitChar '-' k).headD "") = some sd ∧
    (splitChar '-' k)[1]? = some s1 ∧
    parseMDY s1 = some ed ∧
    ∃ cr ad fn ac,
      getCat d2 "Case Receipts" k = Except.ok (some cr) ∧
      getCat d2 "All Decisions" k = Except.ok (some ad) ∧
      getCat d2 "Fear Not Established (N)" k = Except.ok (some fn) ∧
      getCat d2 "Administratively Closed" k = Except.ok (some ac) ∧
      r = { dateRange := formatYMD sd.1 sd.2.1 sd.2.2 ++ "-"
                           ++ formatYMD ed.1 ed.2.1 ed.2.2,
            caseReceipts := commaFormat cr,
            allDecisions := commaFormat ad,
            fearEstablished := commaFormat (p + t),
            fearNotEstablished := commaFormat fn,
            closings := commaFormat ac }

/-- An exact-equality scoring function standing in for fuzz.partial_ratio
in the concrete runs below.  In each concrete grid the scorer is only ever
applied to a pair of identical (lower-cased) title strings, where the real
library also returns 100: id_all_cfi_table only scores header rows, and
the data rows of these grids have non-empty second cells so they are never
header rows. -/
def simEq : String → String → Nat := fun a b => if a == b then 100 else 0

/-- A concrete well-formed category table (one DateRange column) used by
the witnesses below. -/
def sampleCat : Dict (Dict (Option Int)) :=
  [("Case Receipts", [("01/01/2024-01/14/2024", some 1234)]),
   ("All Decisions", [("01/01/2024-01/14/2024", some 5)]),
   ("Fear Established_Persecution (Y)", [("01/01/2024-01/14/2024", some 120)]),
   ("Fear Established_Torture (Y)", [("01/01/2024-01/14/2024", some 30)]),
   ("Fear Not Established (N)", [("01/01/2024-01/14/2024", some 6)]),
   ("Administratively Closed", [("01/01/2024-01/14/2024", some 7)])]

/-- The record the reformat stage produces from `sampleCat`. -/
def sampleRow : MetricRow :=
  { dateRange := "2024-01-01-2024-01-14", caseReceipts := "1,234",
    allDecisions := "5", fearEstablished := "150",
    fearNotEstablished := "6", closings := "7" }

/-- A Python value that can sit in a row dict of the CLI merge:
csv.DictReader yields strings, the parse step replaces them with datetimes
(day numbers) and ints. -/
inductive Cell : Type
  | str (s : String)
  | int (n : Int)
  | date (d : Int)

deriving DecidableEq, Repr

/-- A row dict of the CLI merge. -/
abbrev PyRow : Type := Dict Cell

/-- clean_cfi.py lines 147-151: replace row['Date Range'] by
strptime(row['Date Range'].split('-')[0], '%Y-%m-%d') — note split('-')[0]
of an ISO range key is only the year — and then convert every other field
with the bare int() (ValueError on an unparsable field, uncaught). -/
def parseBimonthlyRow (row : Dict String) : Except PyErr PyRow :=
  match dictLookup row "Date Range" with
  | none => Except.error (PyErr.keyError "Date Range")
  | some drs =>
    match parseYMD ((splitChar '-' drs).headD "") with
    | none => Except.error (PyErr.valueError "time data does not match format")
    | some c =>
      exceptMapM (fun p =>
        if p.1 = "Date Range" then
          Except.ok (p.1, Cell.date (civilToDays c.1 c.2.1 c.2.2))
        else
          match pyParseInt p.2 with
          | some n => Except.ok (p.1, Cell.int n)
          | none => Except.error (PyErr.valueError "invalid literal for int")) row

/-- clean_cfi.py line 154: max(row['Date Range'] for row in new_data) -
timedelta(days=365).  max() of an empty sequence raises ValueError; the
subtraction and the later comparisons and strftime require datetimes, so a
non-datetime Date Range raises TypeError. -/
def cutoffOf (new_data : List PyRow) : Except PyErr Int :=
  match exceptMapM (fun row =>
      match dictLookup row "Date Range" with
      | some (Cell.date d) => Except.ok d
      | some _ => Except.error (PyErr.typeError "unsupported operand type")
      | none => Except.error (PyErr.keyError "Date Range")) new_data with
  | Except.error e => Except.error e
  | Except.ok [] => Except.error (PyErr.valueError "max() arg is an empty sequence")
  | Except.ok (d :: ds) => Except.ok (ds.foldl max d - 365)

/-- The sort key of clean_cfi.py line 161 (row['Date Range'], which must
be a datetime for the comparisons and the later strftime; a non-datetime
value raises TypeError there, modelled at key extraction). -/
def rowDateKey (r : PyRow) : Except PyErr (Int × PyRow) :=
  match dictLookup r "Date Range" with
  | some (Cell.date d) => Except.ok (d, r)
  | some _ => Except.error (PyErr.typeError "not supported between instances")
  | none => Except.error (PyErr.keyError "Date Range")

/-- Keyed descending comparison for bimonthly_data.sort(..., reverse=True). -/
def dayDesc (a b : Int × PyRow) : Prop := b.1 ≤ a.1

instance : DecidableRel dayDesc := fun a b => Int.decLe b.1 a.1

instance : IsTotal (Int × PyRow) dayDesc := ⟨fun a b => le_total b.1 a.1⟩

instance : IsTrans (Int × PyRow) dayDesc := ⟨fun _ _ _ h1 h2 => le_trans h2 h1⟩

/-- clean_cfi.py lines 164-167: row['Date Range'] = start.strftime +
'-' + (start + 14 days).strftime, assigned in place. -/
def serializeRow (p : Int × PyRow) : PyRow :=
  dictSet p.2 "Date Range"
    (Cell.str (formatDay p.1 ++ "-" ++ formatDay (p.1 + 14)))

/-- clean_cfi.py lines 161-167: the reverse=True stable sort by datetime
(modelled with insertion sort; stable sorts with the same comparison agree)
followed by the Date Range re-serialization. -/
def sortSerializeRows (combined : List PyRow) : Except PyErr (List PyRow) :=
  match exceptMapM rowDateKey combined with
  | Except.error e => Except.error e
  | Except.ok keyed =>
    Except.ok ((List.insertionSort dayDesc keyed).map serializeRow)

/-- src/clean_cfi.py `update_bimonthly_data`, with the file read factored
out: `bimonthly` is the list of row dicts csv.DictReader yields from the
existing file, `new_data` the rows the caller passes (line 154 requires
them to carry datetime Date Range values).  In program order: parse and
convert every existing row (lines 147-151), compute the one-year cutoff
(line 154), keep only existing rows strictly before the cutoff and append
the new rows (lines 157-158), then sort descending and re-serialize
(lines 161-167). -/
def update_bimonthly_data (bimonthly : List (Dict String))
    (new_data : List PyRow) : Except PyErr (List PyRow) :=
  match exceptMapM parseBimonthlyRow bimonthly with
  | Except.error e => Except.error e
  | Except.ok parsed =>
    match cutoffOf new_data with
    | Except.error e => Except.error e
    | Except.ok cutoff =>
      let kept := parsed.filter (fun r =>
        match dictLookup r "Date Range" with
        | some (Cell.date d) => decide (d < cutoff)
        | _ => false)
      sortSerializeRows (kept ++ new_data)

/-! Theorems. -/

theorem dictLookup_set_self {α : Type} (d : Dict α) (k : String) (v : α) :
    dictLookup (dictSet d k v) k = some v := by
  induction d with
  | nil => simp [dictSet, dictLookup]
  | cons p d ih =>
    by_cases h : p.1 = k
    · simp [dictSet, h, dictLookup]
    · simp [dictSet, h, dictLookup, ih]

theorem dictLookup_set_ne {α : Type} (d : Dict α) (k k2 : String) (v : α) (h : k2 ≠ k) :
    dictLookup (dictSet d k v) k2 = dictLookup d k2 := by
  have h2 : ¬ (k = k2) := fun hh => h hh.symm
  induction d with
  | nil => simp [dictSet, dictLookup, h2]
  | cons p d ih =>
    by_cases hp : p.1 = k
    · have h3 : ¬ (p.1 = k2) := by rw [hp]; exact h2
      simp [dictSet, hp, dictLookup, h2, h3]
    · simp only [dictSet, if_neg hp, dictLookup]
      by_cases hp2 : p.1 = k2 <;> simp [hp2, ih]

theorem dictLookup_eq_none_of_not_mem {α : Type} {d : Dict α} {k : String}
    (h : k ∉ dictKeys d) : dictLookup d k = none := by
  induction d with
  | nil => rfl
  | cons p d ih =>
    simp only [dictKeys, List.map_cons, List.mem_cons, not_or] at h
    have h3 : ¬ (p.1 = k) := fun hh => h.1 hh.symm
    simp only [dictLookup, if_neg h3]
    exact ih h.2

theorem dictLookup_mem {α : Type} {d : Dict α} {k : String} {v : α}
    (h : dictLookup d k = some v) : (k, v) ∈ d := by
  induction d with
  | nil => simp [dictLookup] at h
  | cons p d ih =>
    obtain ⟨a, b⟩ := p
    by_cases hp : a = k
    · subst hp
      simp [dictLookup] at h
      subst h
      exact List.mem_cons_self _ _
    · simp [dictLookup, hp] at h
      exact List.mem_cons_of_mem _ (ih h)

theorem dictKeys_set {α : Type} (d : Dict α) (k : String) (v : α) :
    dictKeys (dictSet d k v) =
      if k ∈ dictKeys d then dictKeys d else dictKeys d ++ [k] := by
  induction d with
  | nil => simp [dictSet, dictKeys]
  | cons p d ih =>
    by_cases hp : p.1 = k
    · subst hp
      simp [dictSet, dictKeys]
    · have hk : ¬ (k = p.1) := fun hh => hp hh.symm
      simp only [dictSet, if_neg hp, dictKeys, List.map_cons] at ih ⊢
      rw [ih]
      simp only [List.mem_cons, hk, false_or]
      by_cases hm : k ∈ List.map Prod.fst d
      · simp [hm]
      · simp [hm]

theorem dictKeys_nodup_set {α : Type} (d : Dict α) (k : String) (v : α)
    (h : (dictKeys d).Nodup) : (dictKeys (dictSet d k v)).Nodup := by
  rw [dictKeys_set]
  by_cases hm : k ∈ dictKeys d
  · simpa [hm]
  · simp only [hm, if_false]
    refine List.Nodup.append h (List.nodup_singleton k) ?_
    intro a ha hb
    simp only [List.mem_singleton] at hb
    subst hb
    exact hm ha

theorem dictKeys_nodup_update {α : Type} (e : Dict α) :
    ∀ d : Dict α, (dictKeys d).Nodup → (dictKeys (dictUpdate d e)).Nodup := by
  induction e with
  | nil => intro d h; simpa [dictUpdate]
  | cons p e ih =>
    intro d h
    exact ih _ (dictKeys_nodup_set d p.1 p.2 h)

theorem dictLookup_update_none {α : Type} (e : Dict α) :
    ∀ (d : Dict α) (k : String), dictLookup e k = none →
      dictLookup (dictUpdate d e) k = dictLookup d k := by
  induction e with
  | nil => intro d k _; rfl
  | cons p e ih =>
    intro d k h
    obtain ⟨a, b⟩ := p
    by_cases hp : a = k
    · simp [dictLookup, hp] at h
    · simp only [dictLookup] at h
      rw [if_neg hp] at h
      simp only [dictUpdate]
      rw [ih _ _ h, dictLookup_set_ne _ _ _ _ (fun hh => hp hh.symm)]

theorem dictLookup_update_some {α : Type} (e : Dict α) :
    ∀ (d : Dict α) (k : String) (v : α), (dictKeys e).Nodup →
      dictLookup e k = some v → dictLookup (dictUpdate d e) k = some v := by
  induction e with
  | nil => intro d k v _ h; simp [dictLookup] at h
  | cons p e ih =>
    intro d k v he h
    obtain ⟨a, b⟩ := p
    simp only [dictKeys, List.map_cons, List.nodup_cons] at he
    by_cases hp : a = k
    · subst hp
      simp [dictLookup] at h
      subst h
      simp only [dictUpdate]
      rw [dictLookup_update_none _ _ _ (dictLookup_eq_none_of_not_mem he.1),
        dictLookup_set_self]
    · simp only [dictLookup] at h
      rw [if_neg hp] at h
      exact ih _ _ _ he.2 h

theorem wf_inner {s : TruthStore} {k : String} {m : Dict String}
    (hs : WFStore s) (h : dictLookup s k = some m) : (dictKeys m).Nodup :=
  hs.2 (k, m) (dictLookup_mem h)

/-! Lemmas characterising the merge. -/

theorem merge_lookup_none (N : TruthStore) :
    ∀ (T : TruthStore) (k : String), dictLookup N k = none →
      dictLookup (update_truth_with_new_data T N) k = dictLookup T k := by
  induction N with
  | nil => intro T k _; rfl
  | cons p N ih =>
    intro T k h
    obtain ⟨kr, vals⟩ := p
    by_cases hp : kr = k
    · simp [dictLookup, hp] at h
    · simp only [dictLookup] at h
      rw [if_neg hp] at h
      simp only [update_truth_with_new_data]
      cases hT : dictLookup T kr with
      | some inner => rw [ih _ _ h, dictLookup_set_ne _ _ _ _ (fun hh => hp hh.symm)]
      | none => rw [ih _ _ h, dictLookup_set_ne _ _ _ _ (fun hh => hp hh.symm)]

theorem merge_lookup_some (N : TruthStore) :
    ∀ (T : TruthStore) (k : String) (nm : Dict String), (dictKeys N).Nodup →
      dictLookup N k = some nm →
      dictLookup (update_truth_with_new_data T N) k =
        some ((dictLookup T k).elim nm (fun tm => dictUpdate tm nm)) := by
  induction N with
  | nil => intro T k nm _ h; simp [dictLookup] at h
  | cons p N ih =>
    intro T k nm hN h
    obtain ⟨kr, vals⟩ := p
    simp only [dictKeys, List.map_cons, List.nodup_cons] at hN
    by_cases hp : kr = k
    · subst hp
      simp [dictLookup] at h
      subst h
      have hrest : dictLookup N kr = none := dictLookup_eq_none_of_not_mem hN.1
      simp only [update_truth_with_new_data]
      cases hT : dictLookup T kr with
      | some inner =>
        rw [merge_lookup_none _ _ _ hrest, dictLookup_set_self]
        rfl
      | none =>
        rw [merge_lookup_none _ _ _ hrest, dictLookup_set_self]
        rfl
    · simp only [dictLookup] at h
      rw [if_neg hp] at h
      simp only [update_truth_with_new_data]
      cases hT : dictLookup T kr with
      | some inner =>
        rw [ih _ _ _ hN.2 h, dictLookup_set_ne _ _ _ _ (fun hh => hp hh.symm)]
      | none =>
        rw [ih _ _ _ hN.2 h, dictLookup_set_ne _ _ _ _ (fun hh => hp hh.symm)]

theorem merge_keys_nodup (N : TruthStore) :
    ∀ T : TruthStore, (dictKeys T).Nodup →
      (dictKeys (update_truth_with_new_data T N)).Nodup := by
  induction N with
  | nil => intro T hT; simpa [update_truth_with_new_data]
  | cons p N ih =>
    intro T hT
    obtain ⟨kr, vals⟩ := p
    simp only [update_truth_with_new_data]
    cases dictLookup T kr with
    | some inner => exact ih _ (dictKeys_nodup_set _ _ _ hT)
    | none => exact ih _ (dictKeys_nodup_set _ _ _ hT)

theorem merge_wf_inner {A B : TruthStore} (hA : WFStore A) (hB : WFStore B)
    {k : String} {m : Dict String}
    (h : dictLookup (update_truth_with_new_data A B) k = some m) :
    (dictKeys m).Nodup := by
  cases hb : dictLookup B k with
  | none =>
    rw [merge_lookup_none _ _ _ hb] at h
    exact wf_inner hA h
  | some bm =>
    rw [merge_lookup_some _ _ _ _ hB.1 hb] at h
    cases ha : dictLookup A k with
    | none =>
      rw [ha] at h
      cases h
      exact wf_inner hB hb
    | some am =>
      rw [ha] at h
      cases h
      exact dictKeys_nodup_update _ _ (wf_inner hA ha)

/-- C1: the merge returns a store whose keys are the union of both key sets;
a key only in the truth store keeps its field map, a key only in the new
data is added with the new field map, and a key in both gets the shallow
field-level merge in which every field supplied by the new data overwrites
and every truth-only field survives. -/
theorem merge_field_level_semantics (T N : TruthStore) (hN : WFStore N) :
    (∀ k, dictContains (update_truth_with_new_data T N) k
            = (dictContains T k || dictContains N k))
    ∧ (∀ k tm, dictLookup T k = some tm → dictLookup N k = none →
        dictLookup (update_truth_with_new_data T N) k = some tm)
    ∧ (∀ k nm, dictLookup T k = none → dictLookup N k = some nm →
        dictLookup (update_truth_with_new_data T N) k = some nm)
    ∧ (∀ k tm nm, dictLookup T k = some tm → dictLookup N k = some nm →
        dictLookup (update_truth_with_new_data T N) k = some (dictUpdate tm nm)
        ∧ (∀ f v, dictLookup nm f = some v →
            dictLookup (dictUpdate tm nm) f = some v)
        ∧ (∀ f, dictLookup nm f = none →
            dictLookup (dictUpdate tm nm) f = dictLookup tm f)) := by
  refine ⟨?_, ?_, ?_, ?_⟩
  · intro k
    cases hn : dictLookup N k with
    | none =>
      simp only [dictContains, merge_lookup_none N T k hn, hn]
      cases dictLookup T k <;> rfl
    | some nm =>
      simp only [dictContains, merge_lookup_some N T k nm hN.1 hn, hn]
      cases dictLookup T k <;> rfl
  · intro k tm htm hn
    rw [merge_lookup_none N T k hn, htm]
  · intro k nm ht hn
    rw [merge_lookup_some N T k nm hN.1 hn, ht]
    rfl
  · intro k tm nm htm hnm
    refine ⟨?_, ?_, ?_⟩
    · rw [merge_lookup_some N T k nm hN.1 hnm, htm]
      rfl
    · intro f v hf
      exact dictLookup_update_some _ _ _ _ (wf_inner hN hnm) hf
    · intro f hf
      exact dictLookup_update_none _ _ _ hf

/-- Witness for C1 at the spec's own example: truth
`2024-01-01-2024-01-14 -> (Case Receipts 90, Closings 5)` merged with new
data `Case Receipts 100` keeps the key and yields the field-level merge. -/
theorem merge_field_level_semantics_witness :
    (dictContains
        (update_truth_with_new_data
          [("2024-01-01-2024-01-14", [("Case Receipts", "90"), ("Closings", "5")])]
          [("2024-01-01-2024-01-14", [("Case Receipts", "100")])])
        "2024-01-01-2024-01-14"
      = (dictContains
          [("2024-01-01-2024-01-14", [("Case Receipts", "90"), ("Closings", "5")])]
          "2024-01-01-2024-01-14"
        || dictContains [("2024-01-01-2024-01-14", [("Case Receipts", "100")])]
          "2024-01-01-2024-01-14"))
    ∧ dictLookup
        (update_truth_with_new_data
          [("2024-01-01-2024-01-14", [("Case Receipts", "90"), ("Closings", "5")])]
          [("2024-01-01-2024-01-14", [("Case Receipts", "100")])])
        "2024-01-01-2024-01-14"
      = some [("Case Receipts", "100"), ("Closings", "5")] :=
  ⟨(merge_field_level_semantics
      [("2024-01-01-2024-01-14", [("Case Receipts", "90"), ("Closings", "5")])]
      [("2024-01-01-2024-01-14", [("Case Receipts", "100")])]
      (by decide)).1 "2024-01-01-2024-01-14",
   by decide⟩

/-- C8: evaluation of the shallow-copy aliasing bug at a failing input.
The code calls `truth_data.copy()` (intending to protect the caller's
store) but the copy is shallow, so merging new data for an existing key
mutates the caller's inner field map: after the call the caller's store
reports the new value, contradicting the claim that the caller-supplied
store is unchanged. -/
theorem merge_mutates_caller_truth_store :
    truth_data_after_merge
        [("2024-01-01-2024-01-14", [("Case Receipts", "90"), ("Closings", "5")])]
        [("2024-01-01-2024-01-14", [("Case Receipts", "100")])]
      ≠ [("2024-01-01-2024-01-14", [("Case Receipts", "90"), ("Closings", "5")])]
    ∧ lookup2
        (truth_data_after_merge
          [("2024-01-01-2024-01-14", [("Case Receipts", "90"), ("Closings", "5")])]
          [("2024-01-01-2024-01-14", [("Case Receipts", "100")])])
        "2024-01-01-2024-01-14" "Case Receipts" = some "100" := by
  constructor
  · decide
  · decide

theorem dictUpdate_assoc_lookup (tm am bm : Dict String) (f : String)
    (ham : (dictKeys am).Nodup) (hbm : (dictKeys bm).Nodup) :
    dictLookup (dictUpdate (dictUpdate tm am) bm) f
      = dictLookup (dictUpdate tm (dictUpdate am bm)) f := by
  cases hbf : dictLookup bm f with
  | some v =>
    have h1 : dictLookup (dictUpdate (dictUpdate tm am) bm) f = some v :=
      dictLookup_update_some _ _ _ _ hbm hbf
    have h2 : dictLookup (dictUpdate am bm) f = some v :=
      dictLookup_update_some _ _ _ _ hbm hbf
    have h3 : dictLookup (dictUpdate tm (dictUpdate am bm)) f = some v :=
      dictLookup_update_some _ _ _ _ (dictKeys_nodup_update _ _ ham) h2
    rw [h1, h3]
  | none =>
    have h1 : dictLookup (dictUpdate (dictUpdate tm am) bm) f
        = dictLookup (dictUpdate tm am) f := dictLookup_update_none _ _ _ hbf
    have h2 : dictLookup (dictUpdate am bm) f = dictLookup am f :=
      dictLookup_update_none _ _ _ hbf
    cases haf : dictLookup am f with
    | some w =>
      have h4 : dictLookup (dictUpdate tm am) f = some w :=
        dictLookup_update_some _ _ _ _ ham haf
      have h5 : dictLookup (dictUpdate tm (dictUpdate am bm)) f = some w :=
        dictLookup_update_some _ _ _ _ (dictKeys_nodup_update _ _ ham) (h2.trans haf)
      rw [h1, h4, h5]
    | none =>
      have h4 : dictLookup (dictUpdate tm am) f = dictLookup tm f :=
        dictLookup_update_none _ _ _ haf
      have h5 : dictLookup (dictUpdate tm (dictUpdate am bm)) f = dictLookup tm f :=
        dictLookup_update_none _ _ _ (h2.trans haf)
      rw [h1, h4, h5]

/-- C9: merging truth with A and then with B equals merging truth with the
union of A and B (their merge) directly, key by key and field by field,
provided A and B update no conflicting field of a common DateRange. -/
theorem merge_assoc_union (T A B : TruthStore) (hA : WFStore A) (hB : WFStore B)
    (hc : noConflict A B = true) (k f : String) :
    dictContains
        (update_truth_with_new_data (update_truth_with_new_data T A) B) k
      = dictContains
        (update_truth_with_new_data T (update_truth_with_new_data A B)) k
    ∧ lookup2
        (update_truth_with_new_data (update_truth_with_new_data T A) B) k f
      = lookup2
        (update_truth_with_new_data T (update_truth_with_new_data A B)) k f := by
  have hABn : (dictKeys (update_truth_with_new_data A B)).Nodup :=
    merge_keys_nodup B A hA.1
  cases hbk : dictLookup B k with
  | none =>
    cases hak : dictLookup A k with
    | none =>
      have hab : dictLookup (update_truth_with_new_data A B) k = none := by
        rw [merge_lookup_none B A k hbk]
        exact hak
      have e1 : dictLookup
          (update_truth_with_new_data (update_truth_with_new_data T A) B) k
          = dictLookup T k := by
        rw [merge_lookup_none B _ k hbk, merge_lookup_none A T k hak]
      have e2 : dictLookup
          (update_truth_with_new_data T (update_truth_with_new_data A B)) k
          = dictLookup T k := merge_lookup_none _ _ _ hab
      exact ⟨by simp [dictContains, e1, e2], by simp [lookup2, e1, e2]⟩
    | some am =>
      have hab : dictLookup (update_truth_with_new_data A B) k = some am := by
        rw [merge_lookup_none B A k hbk]
        exact hak
      have e1 : dictLookup
          (update_truth_with_new_data (update_truth_with_new_data T A) B) k
          = some ((dictLookup T k).elim am (fun tm => dictUpdate tm am)) := by
        rw [merge_lookup_none B _ k hbk, merge_lookup_some A T k am hA.1 hak]
      have e2 : dictLookup
          (update_truth_with_new_data T (update_truth_with_new_data A B)) k
          = some ((dictLookup T k).elim am (fun tm => dictUpdate tm am)) :=
        merge_lookup_some _ _ _ _ hABn hab
      exact ⟨by simp [dictContains, e1, e2], by simp [lookup2, e1, e2]⟩
  | some bm =>
    cases hak : dictLookup A k with
    | none =>
      have hab : dictLookup (update_truth_with_new_data A B) k = some bm := by
        rw [merge_lookup_some B A k bm hB.1 hbk, hak]
        rfl
      have e1 : dictLookup
          (update_truth_with_new_data (update_truth_with_new_data T A) B) k
          = some ((dictLookup T k).elim bm (fun tm => dictUpdate tm bm)) := by
        rw [merge_lookup_some B _ k bm hB.1 hbk, merge_lookup_none A T k hak]
      have e2 : dictLookup
          (update_truth_with_new_data T (update_truth_with_new_data A B)) k
          = some ((dictLookup T k).elim bm (fun tm => dictUpdate tm bm)) :=
        merge_lookup_some _ _ _ _ hABn hab
      exact ⟨by simp [dictContains, e1, e2], by simp [lookup2, e1, e2]⟩
    | some am =>
      have hab : dictLookup (update_truth_with_new_data A B) k
          = some (dictUpdate am bm) := by
        rw [merge_lookup_some B A k bm hB.1 hbk, hak]
        rfl
      cases htk : dictLookup T k with
      | none =>
        have e1 : dictLookup
            (update_truth_with_new_data (update_truth_with_new_data T A) B) k
            = some (dictUpdate am bm) := by
          rw [merge_lookup_some B _ k bm hB.1 hbk, merge_lookup_some A T k am hA.1 hak,
            htk]
          rfl
        have e2 : dictLookup
            (update_truth_with_new_data T (update_truth_with_new_data A B)) k
            = some (dictUpdate am bm) := by
          rw [merge_lookup_some _ _ _ _ hABn hab, htk]
          rfl
        exact ⟨by simp [dictContains, e1, e2], by simp [lookup2, e1, e2]⟩
      | some tm =>
        have e1 : dictLookup
            (update_truth_with_new_data (update_truth_with_new_data T A) B) k
            = some (dictUpdate (dictUpdate tm am) bm) := by
          rw [merge_lookup_some B _ k bm hB.1 hbk, merge_lookup_some A T k am hA.1 hak,
            htk]
          rfl
        have e2 : dictLookup
            (update_truth_with_new_data T (update_truth_with_new_data A B)) k
            = some (dictUpdate tm (dictUpdate am bm)) := by
          rw [merge_lookup_some _ _ _ _ hABn hab, htk]
          rfl
        constructor
        · simp [dictContains, e1, e2]
        · simp only [lookup2, e1, e2]
          exact dictUpdate_assoc_lookup tm am bm f (wf_inner hA hak) (wf_inner hB hbk)

/-- Witness for C9 at concrete conflict-free stores: A supplies
Case Receipts for one period, B supplies Closings for the same period plus
a fresh period. -/
theorem merge_assoc_union_witness :
    dictContains
        (update_truth_with_new_data
          (update_truth_with_new_data
            [("2024-01-01-2024-01-14", [("Case Receipts", "90"), ("All Decisions", "80")])]
            [("2024-01-01-2024-01-14", [("Case Receipts", "100")])])
          [("2024-01-01-2024-01-14", [("Closings", "7")]),
           ("2024-01-15-2024-01-28", [("Case Receipts", "50")])])
        "2024-01-01-2024-01-14"
      = dictContains
        (update_truth_with_new_data
          [("2024-01-01-2024-01-14", [("Case Receipts", "90"), ("All Decisions", "80")])]
          (update_truth_with_new_data
            [("2024-01-01-2024-01-14", [("Case Receipts", "100")])]
            [("2024-01-01-2024-01-14", [("Closings", "7")]),
             ("2024-01-15-2024-01-28", [("Case Receipts", "50")])]))
        "2024-01-01-2024-01-14"
    ∧ lookup2
        (update_truth_with_new_data
          (update_truth_with_new_data
            [("2024-01-01-2024-01-14", [("Case Receipts", "90"), ("All Decisions", "80")])]
            [("2024-01-01-2024-01-14", [("Case Receipts", "100")])])
          [("2024-01-01-2024-01-14", [("Closings", "7")]),
           ("2024-01-15-2024-01-28", [("Case Receipts", "50")])])
        "2024-01-01-2024-01-14" "Case Receipts"
      = lookup2
        (update_truth_with_new_data
          [("2024-01-01-2024-01-14", [("Case Receipts", "90"), ("All Decisions", "80")])]
          (update_truth_with_new_data
            [("2024-01-01-2024-01-14", [("Case Receipts", "100")])]
            [("2024-01-01-2024-01-14", [("Closings", "7")]),
             ("2024-01-15-2024-01-28", [("Case Receipts", "50")])]))
        "2024-01-01-2024-01-14" "Case Receipts" :=
  merge_assoc_union
    [("2024-01-01-2024-01-14", [("Case Receipts", "90"), ("All Decisions", "80")])]
    [("2024-01-01-2024-01-14", [("Case Receipts", "100")])]
    [("2024-01-01-2024-01-14", [("Closings", "7")]),
     ("2024-01-15-2024-01-28", [("Case Receipts", "50")])]
    (by decide) (by decide) (by decide) "2024-01-01-2024-01-14" "Case Receipts"

/-! Embedding of src/clean_cfi.py. -/

theorem except_bind_ok {α β : Type} {x : Except PyErr α} {f : α → Except PyErr β} {b : β}
    (h : (x >>= f) = Except.ok b) : ∃ a, x = Except.ok a ∧ f a = Except.ok b := by
  cases x with
  | error e => simp [Bind.bind, Except.bind] at h
  | ok a => exact ⟨a, rfl, h⟩

theorem pyAdd_ok {a b : Option Int} {s : Int} (h : pyAdd a b = Except.ok s) :
    ∃ x y, a = some x ∧ b = some y ∧ s = x + y := by
  cases a with
  | none => simp [pyAdd] at h
  | some x =>
    cases b with
    | none => simp [pyAdd] at h
    | some y =>
      simp [pyAdd] at h
      exact ⟨x, y, rfl, rfl, h.symm⟩

theorem strptimeMDY_ok {s : String} {c : Int × Int × Int}
    (h : strptimeMDY s = Except.ok c) : parseMDY s = some c := by
  unfold strptimeMDY at h
  cases hc : parseMDY s with
  | none => rw [hc] at h; simp at h
  | some c2 => rw [hc] at h; simp at h; rw [h]

theorem fmtCell_ok {v : Option Int} {s : String} (h : fmtCell v = Except.ok s) :
    ∃ n, v = some n ∧ s = commaFormat n := by
  cases v with
  | none => simp [fmtCell] at h
  | some n =>
    simp [fmtCell] at h
    exact ⟨n, rfl, h.symm⟩

theorem listGet1_ok {xs : List String} {s : String}
    (h : listGet1 xs = Except.ok s) : xs[1]? = some s := by
  unfold listGet1 at h
  cases hx : xs[1]? with
  | none => rw [hx] at h; simp at h
  | some x => rw [hx] at h; simp at h; rw [h]

theorem buildRow_ok_spec {d2 : Dict (Dict (Option Int))} {k : String} {r : MetricRow}
    (h : buildRow d2 k = Except.ok r) : ReformattedRowOk d2 k r := by
  unfold buildRow at h
  obtain ⟨pv, hp, h⟩ := except_bind_ok h
  obtain ⟨tv, ht, h⟩ := except_bind_ok h
  obtain ⟨fe, hfe, h⟩ := except_bind_ok h
  obtain ⟨sd, hsd, h⟩ := except_bind_ok h
  obtain ⟨s1, hs1, h⟩ := except_bind_ok h
  obtain ⟨ed, hed, h⟩ := except_bind_ok h
  obtain ⟨crv, hcr, h⟩ := except_bind_ok h
  obtain ⟨crs, hcrs, h⟩ := except_bind_ok h
  obtain ⟨adv, had, h⟩ := except_bind_ok h
  obtain ⟨ads, hads, h⟩ := except_bind_ok h
  obtain ⟨fnv, hfn, h⟩ := except_bind_ok h
  obtain ⟨fns, hfns, h⟩ := except_bind_ok h
  obtain ⟨acv, hac, h⟩ := except_bind_ok h
  obtain ⟨acs, hacs, hfin⟩ := except_bind_ok h
  have hrec := Except.ok.inj hfin
  obtain ⟨px, py, hpx, hpy, hsum⟩ := pyAdd_ok hfe
  obtain ⟨crn, hcrn, hcrsv⟩ := fmtCell_ok hcrs
  obtain ⟨adn, hadn, hadsv⟩ := fmtCell_ok hads
  obtain ⟨fnn, hfnn, hfnsv⟩ := fmtCell_ok hfns
  obtain ⟨acn, hacn, hacsv⟩ := fmtCell_ok hacs
  refine ⟨px, py, sd, ed, s1, by rw [hp, hpx], by rw [ht, hpy],
    strptimeMDY_ok hsd, listGet1_ok hs1, strptimeMDY_ok hed,
    crn, adn, fnn, acn, by rw [hcr, hcrn], by rw [had, hadn],
    by rw [hfn, hfnn], by rw [hac, hacn], ?_⟩
  rw [← hrec, hsum, hcrsv, hadsv, hfnsv, hacsv]

theorem build_rows_mem {d2 : Dict (Dict (Option Int))} :
    ∀ {ks : List String} {rows : List MetricRow},
      build_rows d2 ks = Except.ok rows → ∀ r ∈ rows,
        ∃ k, k ∈ ks ∧ ¬(k = "From-To" ∨ k = "-") ∧ buildRow d2 k = Except.ok r := by
  intro ks
  induction ks with
  | nil =>
    intro rows h r hr
    simp only [build_rows, Except.ok.injEq] at h
    subst h
    simp at hr
  | cons k ks ih =>
    intro rows h r hr
    by_cases hk : k = "From-To" ∨ k = "-"
    · rw [build_rows, if_pos hk] at h
      obtain ⟨k2, hk2, hs, hb⟩ := ih h r hr
      exact ⟨k2, List.mem_cons_of_mem _ hk2, hs, hb⟩
    · rw [build_rows, if_neg hk] at h
      cases hbr : buildRow d2 k with
      | error e => rw [hbr] at h; simp at h
      | ok r0 =>
        rw [hbr] at h
        cases hrest : build_rows d2 ks with
        | error e => rw [hrest] at h; simp at h
        | ok rs =>
          rw [hrest] at h
          simp only [Except.ok.injEq] at h
          subst h
          rcases List.mem_cons.mp hr with h1 | h2
          · exact ⟨k, List.mem_cons_self _ _, hk, by rw [h1]; exact hbr⟩
          · obtain ⟨k2, hk2, hs, hb⟩ := ih hrest r h2
            exact ⟨k2, List.mem_cons_of_mem _ hk2, hs, hb⟩

theorem build_rows_forall {d2 : Dict (Dict (Option Int))} :
    ∀ {ks : List String} {rows : List MetricRow},
      build_rows d2 ks = Except.ok rows →
      ∀ k ∈ ks, ¬(k = "From-To" ∨ k = "-") →
        ∃ r, r ∈ rows ∧ buildRow d2 k = Except.ok r := by
  intro ks
  induction ks with
  | nil =>
    intro rows _ k hk _
    simp at hk
  | cons k0 ks ih =>
    intro rows h k hk hs
    by_cases hk0 : k0 = "From-To" ∨ k0 = "-"
    · rw [build_rows, if_pos hk0] at h
      rcases List.mem_cons.mp hk with h1 | h2
      · exact absurd (h1 ▸ hk0) hs
      · exact ih h k h2 hs
    · rw [build_rows, if_neg hk0] at h
      cases hbr : buildRow d2 k0 with
      | error e => rw [hbr] at h; simp at h
      | ok r0 =>
        rw [hbr] at h
        cases hrest : build_rows d2 ks with
        | error e => rw [hrest] at h; simp at h
        | ok rs =>
          rw [hrest] at h
          simp only [Except.ok.injEq] at h
          subst h
          rcases List.mem_cons.mp hk with h1 | h2
          · exact ⟨r0, List.mem_cons_self _ _, by rw [h1]; exact hbr⟩
          · obtain ⟨r2, hr2, hb⟩ := ih hrest k h2 hs
            exact ⟨r2, List.mem_cons_of_mem _ hr2, hb⟩

/-- C4: whenever the Record Reformatter stage returns normally, every
emitted record comes from a non-sentinel key of the Case Receipts mapping
and satisfies `ReformattedRowOk`: Fear Established (Y) is the persecution
value plus the torture value, Closings is the renamed Administratively
Closed value, the key is reformatted to canonical ISO form, and every
field is a thousands-separated display string. -/
theorem reformatter_output_correct (d2 : Dict (Dict (Option Int)))
    (rows : List MetricRow) (h : reformat_data d2 = Except.ok rows)
    (r : MetricRow) (hr : r ∈ rows) :
    ∃ m k, dictLookup d2 "Case Receipts" = some m ∧ k ∈ dictKeys m ∧
      ¬(k = "From-To" ∨ k = "-") ∧ ReformattedRowOk d2 k r := by
  unfold reformat_data at h
  cases hm : dictLookup d2 "Case Receipts" with
  | none => rw [hm] at h; simp at h
  | some m =>
    rw [hm] at h
    obtain ⟨k, hk, hs, hb⟩ := build_rows_mem h r hr
    exact ⟨m, k, rfl, hk, hs, buildRow_ok_spec hb⟩

/-- C3 (amended): convert_to_int records an unparsable cell as None
without raising, but the reformat stage never excludes a DateRange whose
cell is None: whenever it returns normally, every processed DateRange had
an actual integer in all six categories (so no None and no default was
ever folded into the sum or the output); a None value instead aborts the
whole call with a TypeError (see the counterexample evaluation). -/
theorem none_cell_not_excluded (d2 : Dict (Dict (Option Int)))
    (rows : List MetricRow) (h : reformat_data d2 = Except.ok rows)
    (m : Dict (Option Int)) (hm : dictLookup d2 "Case Receipts" = some m)
    (k : String) (hk : k ∈ dictKeys m) (hs : ¬(k = "From-To" ∨ k = "-")) :
    ∀ cat ∈ categories, ∃ n : Int, getCat d2 cat k = Except.ok (some n) := by
  unfold reformat_data at h
  rw [hm] at h
  obtain ⟨r, _, hb⟩ := build_rows_forall h k hk hs
  obtain ⟨p, t, sd, ed, s1, hp, ht, _, _, _, cr, ad, fn, ac, hcr, had, hfn, hac, _⟩ :=
    buildRow_ok_spec hb
  intro cat hcat
  simp only [categories, List.mem_cons, List.not_mem_nil, or_false] at hcat
  rcases hcat with h1 | h1 | h1 | h1 | h1 | h1 <;> subst h1
  · exact ⟨cr, hcr⟩
  · exact ⟨ad, had⟩
  · exact ⟨p, hp⟩
  · exact ⟨t, ht⟩
  · exact ⟨fn, hfn⟩
  · exact ⟨ac, hac⟩

/-- C6 (amended): extraction performs no skip-and-continue for malformed
dates: whenever the reformat stage returns normally, both endpoints of
every processed DateRange parsed in the native month/day/year format; a
malformed endpoint instead aborts the entire call with a ValueError (see
the counterexample evaluation), so no remaining records are returned. -/
theorem malformed_date_not_skipped (d2 : Dict (Dict (Option Int)))
    (rows : List MetricRow) (h : reformat_data d2 = Except.ok rows)
    (m : Dict (Option Int)) (hm : dictLookup d2 "Case Receipts" = some m)
    (k : String) (hk : k ∈ dictKeys m) (hs : ¬(k = "From-To" ∨ k = "-")) :
    (parseMDY ((splitChar '-' k).headD "")).isSome = true
    ∧ ∃ s1, (splitChar '-' k)[1]? = some s1 ∧ (parseMDY s1).isSome = true := by
  unfold reformat_data at h
  rw [hm] at h
  obtain ⟨r, _, hb⟩ := build_rows_forall h k hk hs
  obtain ⟨p, t, sd, ed, s1, _, _, hsd, hs1, hed, _⟩ := buildRow_ok_spec hb
  exact ⟨by rw [hsd]; rfl, s1, hs1, by rw [hed]; rfl⟩

/-! Lemmas for the missing-label-row behaviour (C5). -/

theorem rowPair_error {r : List String} {e : PyErr}
    (h : rowPair r = Except.error e) : e = PyErr.indexError := by
  unfold rowPair rowZero at h
  cases hh : r.head? with
  | some c => rw [hh] at h; simp at h
  | none => rw [hh] at h; simp at h; exact h.symm

theorem rowPair_ok_label {r : List String} {p : String × List String}
    (h : rowPair r = Except.ok p) : p.1 = r.headD "" := by
  unfold rowPair rowZero at h
  cases hh : r.head? with
  | none => rw [hh] at h; simp at h
  | some c =>
    rw [hh] at h
    simp at h
    cases r with
    | nil => simp at hh
    | cons a rs =>
      simp at hh
      rw [← h]
      simp [hh]

theorem exceptMapM_rowPair_error {tbl : List (List String)} {e : PyErr}
    (h : exceptMapM rowPair tbl = Except.error e) : e = PyErr.indexError := by
  induction tbl with
  | nil => simp [exceptMapM] at h
  | cons r rs ih =>
    simp only [exceptMapM] at h
    cases hr : rowPair r with
    | error e2 =>
      rw [hr] at h
      simp at h
      rw [← h]
      exact rowPair_error hr
    | ok b =>
      rw [hr] at h
      cases hrest : exceptMapM rowPair rs with
      | error e2 =>
        rw [hrest] at h
        simp at h
        subst h
        exact ih hrest
      | ok bs => rw [hrest] at h; simp at h

theorem exceptMapM_rowPair_ok_mem {tbl : List (List String)}
    {pairs : List (String × List String)}
    (h : exceptMapM rowPair tbl = Except.ok pairs) :
    ∀ p ∈ pairs, ∃ r, r ∈ tbl ∧ rowPair r = Except.ok p := by
  induction tbl generalizing pairs with
  | nil =>
    simp only [exceptMapM, Except.ok.injEq] at h
    subst h
    simp
  | cons r rs ih =>
    simp only [exceptMapM] at h
    cases hr : rowPair r with
    | error e => rw [hr] at h; simp at h
    | ok b =>
      rw [hr] at h
      cases hrest : exceptMapM rowPair rs with
      | error e => rw [hrest] at h; simp at h
      | ok bs =>
        rw [hrest] at h
        simp only [Except.ok.injEq] at h
        subst h
        intro p hp
        rcases List.mem_cons.mp hp with h1 | h2
        · exact ⟨r, List.mem_cons_self _ _, by rw [h1]; exact hr⟩
        · obtain ⟨r2, hr2, hb⟩ := ih hrest p h2
          exact ⟨r2, List.mem_cons_of_mem _ hr2, hb⟩

theorem findLabelRow_error {tbl : List (List String)} {lbl : String} {e : PyErr}
    (h : findLabelRow tbl lbl = Except.error e) : e = PyErr.indexError := by
  unfold findLabelRow at h
  cases hm : exceptMapM rowPair tbl with
  | error e2 =>
    rw [hm] at h
    simp at h
    rw [← h]
    exact exceptMapM_rowPair_error hm
  | ok pairs =>
    rw [hm] at h
    have h2 : (match (pairs.filter (fun p => pyUpper (pyStrip p.1) == lbl)).head? with
        | some p => Except.ok p.2
        | none => Except.error PyErr.indexError) = Except.error e := h
    cases hh : (pairs.filter (fun p => pyUpper (pyStrip p.1) == lbl)).head? with
    | some p => rw [hh] at h2; simp at h2
    | none => rw [hh] at h2; simp at h2; exact h2.symm

theorem findLabelRow_not_found {tbl : List (List String)} {lbl : String}
    (h : ∀ r ∈ tbl, pyUpper (pyStrip (r.headD "")) ≠ lbl) :
    findLabelRow tbl lbl = Except.error PyErr.indexError := by
  unfold findLabelRow
  cases hm : exceptMapM rowPair tbl with
  | error e =>
    have he := exceptMapM_rowPair_error hm
    rw [he]
  | ok pairs =>
    have hfilter : pairs.filter (fun p => pyUpper (pyStrip p.1) == lbl) = [] := by
      rw [List.filter_eq_nil_iff]
      intro p hp hbeq
      obtain ⟨r, hr, hrp⟩ := exceptMapM_rowPair_ok_mem hm p hp
      rw [rowPair_ok_label hrp] at hbeq
      exact h r hr (by simpa using hbeq)
    show (match (pairs.filter (fun p => pyUpper (pyStrip p.1) == lbl)).head? with
        | some p => Except.ok p.2
        | none => Except.error PyErr.indexError) = Except.error PyErr.indexError
    rw [hfilter]
    rfl

/-- C5 (amended): when the located table's region lacks a row labelled
FROM or a row labelled TO (after stripping and upper-casing), the
extraction call raises an uncaught IndexError: no partial result is
returned, but the failure escapes as an unstructured exception rather
than a typed outcome. -/
theorem missing_label_row_raises (sim : String → String → Nat)
    (rows : List (List String)) (i : Nat)
    (hlen : ¬ rows.length < 2)
    (hfind : id_all_cfi_table sim (rows.drop 2) = some i)
    (hmiss : (∀ r ∈ cfiRegion rows i, pyUpper (pyStrip (r.headD "")) ≠ "FROM")
           ∨ (∀ r ∈ cfiRegion rows i, pyUpper (pyStrip (r.headD "")) ≠ "TO")) :
    extract_credible_fear_data sim rows = Except.error PyErr.indexError := by
  unfold extract_credible_fear_data
  rw [if_neg hlen, hfind]
  simp only []
  rcases hmiss with hf | ht2
  · rw [findLabelRow_not_found hf]
  · cases hfr : findLabelRow (cfiRegion rows i) "FROM" with
    | error e =>
      show Except.error e = Except.error PyErr.indexError
      rw [findLabelRow_error hfr]
    | ok fromRow =>
      rw [findLabelRow_not_found ht2]

theorem id_all_cfi_table_go_none (sim : String → String → Nat) :
    ∀ (l : List (List String)) (i : Nat),
      (∀ r ∈ l, is_table_header r = true →
        sim (pyLower (r.headD "")) (pyLower "All Credible Fear Cases") ≤ 80) →
      id_all_cfi_table_go sim l i = none := by
  intro l
  induction l with
  | nil => intro i _; rfl
  | cons r rs ih =>
    intro i h
    simp only [id_all_cfi_table_go]
    by_cases hh : is_table_header r
    · rw [if_pos hh]
      have hb := h r (List.mem_cons_self _ _) hh
      rw [if_neg (by omega)]
      exact ih _ (fun r2 hr2 hh2 => h r2 (List.mem_cons_of_mem _ hr2) hh2)
    · rw [if_neg hh]
      exact ih _ (fun r2 hr2 hh2 => h r2 (List.mem_cons_of_mem _ hr2) hh2)

/-- C7: when no header row of the searched grid scores above the fuzzy
similarity threshold of 80 against the target title, extraction returns
the empty result and raises nothing. -/
theorem no_table_returns_empty (sim : String → String → Nat)
    (rows : List (List String)) (hlen : ¬ rows.length < 2)
    (h : ∀ r ∈ rows.drop 2, is_table_header r = true →
      sim (pyLower (r.headD "")) (pyLower "All Credible Fear Cases") ≤ 80) :
    extract_credible_fear_data sim rows = Except.ok PyRet.emptyList := by
  unfold extract_credible_fear_data
  rw [if_neg hlen]
  unfold id_all_cfi_table
  rw [id_all_cfi_table_go_none sim _ 0 h]

/-- Counterexample to C5 as stated: a grid whose located table has no
FROM row makes the call raise an uncaught IndexError instead of reporting
a typed missing-row failure. -/
theorem missing_from_row_counterexample :
    extract_credible_fear_data simEq
      [["meta1"], ["meta2"],
       ["All Credible Fear Cases", "", ""],
       ["Case Receipts", "1", "2"]]
      = Except.error PyErr.indexError := by decide

/-- Witness for the amended C5 theorem at a concrete grid (the TO-missing
disjunct, with a FROM row present). -/
theorem missing_label_row_raises_witness :
    extract_credible_fear_data simEq
      [["meta1"], ["meta2"],
       ["All Credible Fear Cases", "", ""],
       ["From", "01/01/2024", "01/15/2024"],
       ["Case Receipts", "1", "2"]]
      = Except.error PyErr.indexError :=
  missing_label_row_raises simEq
    [["meta1"], ["meta2"],
     ["All Credible Fear Cases", "", ""],
     ["From", "01/01/2024", "01/15/2024"],
     ["Case Receipts", "1", "2"]]
    0 (by decide) (by decide) (Or.inr (by decide))

/-- Counterexample to C6 as stated: a malformed start date (month 13) in
one column aborts the whole extraction call with ValueError; the other
column of the same table is perfectly well formed (its date parses), yet
no records are returned for it. -/
theorem malformed_date_aborts_call_counterexample :
    extract_credible_fear_data simEq
      [["meta1"], ["meta2"],
       ["All Credible Fear Cases", "", ""],
       ["From", "13/45/2024", "01/15/2024"],
       ["To", "13/59/2024", "01/28/2024"],
       ["Case Receipts", "10", "20"],
       ["All Decisions", "11", "21"],
       ["Fear Established_Persecution (Y)", "120", "30"],
       ["Fear Established_Torture (Y)", "30", "7"],
       ["Fear Not Established (N)", "5", "6"],
       ["Administratively Closed", "1", "2"]]
      = Except.error (PyErr.valueError "time data does not match format")
    ∧ parseMDY "01/15/2024" = some (2024, 1, 15) := by
  constructor
  · decide
  · decide

/-- Witness for the amended C6 theorem at a concrete successful reformat. -/
theorem malformed_date_not_skipped_witness :
    (parseMDY ((splitChar '-' "01/01/2024-01/14/2024").headD "")).isSome = true
    ∧ ∃ s1, (splitChar '-' "01/01/2024-01/14/2024")[1]? = some s1
        ∧ (parseMDY s1).isSome = true :=
  malformed_date_not_skipped sampleCat [sampleRow] (by decide)
    [("01/01/2024-01/14/2024", some 1234)] (by decide)
    "01/01/2024-01/14/2024" (by decide) (by decide)

/-- Counterexample to C3 as stated: a cell reading N/A is recorded as None
by convert_to_int, but when its DateRange is processed the None does not
exclude that DateRange: formatting None raises a TypeError that aborts the
whole extraction call. -/
theorem unparsable_cell_raises_counterexample :
    convert_to_int "N/A" = none
    ∧ extract_credible_fear_data simEq
        [["meta1"], ["meta2"],
         ["All Credible Fear Cases", "", ""],
         ["From", "01/01/2024", "01/15/2024"],
         ["To", "01/14/2024", "01/28/2024"],
         ["Case Receipts", "N/A", "20"],
         ["All Decisions", "11", "21"],
         ["Fear Established_Persecution (Y)", "120", "30"],
         ["Fear Established_Torture (Y)", "30", "7"],
         ["Fear Not Established (N)", "5", "6"],
         ["Administratively Closed", "1", "2"]]
      = Except.error (PyErr.typeError "unsupported format string passed to NoneType") := by
  constructor
  · decide
  · decide

/-- Witness for the amended C3 theorem at the same concrete successful
reformat as above, specialised to the Case Receipts category. -/
theorem none_cell_not_excluded_witness :
    ∃ n : Int,
      getCat sampleCat "Case Receipts" "01/01/2024-01/14/2024" = Except.ok (some n) :=
  none_cell_not_excluded sampleCat [sampleRow] (by decide)
    [("01/01/2024-01/14/2024", some 1234)] (by decide)
    "01/01/2024-01/14/2024" (by decide) (by decide)
    "Case Receipts" (by decide)

/-- Witness for C4 at a concrete table: persecution 120 plus torture 30
gives the Fear Established (Y) display string 150, Closings renames
Administratively Closed, and 1234 is displayed as 1,234. -/
theorem reformatter_output_correct_witness :
    ∃ m k, dictLookup sampleCat "Case Receipts" = some m ∧ k ∈ dictKeys m ∧
      ¬(k = "From-To" ∨ k = "-") ∧ ReformattedRowOk sampleCat k sampleRow :=
  reformatter_output_correct sampleCat [sampleRow] (by decide) sampleRow (by decide)

/-- Witness for C7 at a concrete grid with no matching header (a constant
zero scorer trivially satisfies the no-match hypothesis; the real library
scores the unrelated title below the threshold as well). -/
theorem no_table_returns_empty_witness :
    extract_credible_fear_data (fun _ _ => 0)
      [["meta1"], ["meta2"],
       ["Some Other Table", "", ""],
       ["Case Receipts", "1", "2"]]
      = Except.ok PyRet.emptyList :=
  no_table_returns_empty (fun _ _ => 0)
    [["meta1"], ["meta2"],
     ["Some Other Table", "", ""],
     ["Case Receipts", "1", "2"]]
    (by decide) (by decide)

/-! Embedding of src/clean_cfi.py `update_bimonthly_data`. -/

theorem serialize_lookup_map (l : List (Int × PyRow)) :
    (l.map serializeRow).map (fun r => dictLookup r "Date Range")
      = (l.map Prod.fst).map
          (fun d => some (Cell.str (formatDay d ++ "-" ++ formatDay (d + 14)))) := by
  induction l with
  | nil => rfl
  | cons p l ih =>
    simp only [List.map_cons, ih, List.cons.injEq, and_true]
    simp only [serializeRow]
    rw [dictLookup_set_self]

theorem sortSerializeRows_descending (combined : List PyRow) (out : List PyRow)
    (h : sortSerializeRows combined = Except.ok out) :
    ∃ ds : List Int, List.Pairwise (fun a b => b ≤ a) ds ∧
      out.map (fun r => dictLookup r "Date Range")
        = ds.map (fun d => some (Cell.str (formatDay d ++ "-" ++ formatDay (d + 14)))) := by
  unfold sortSerializeRows at h
  cases hk : exceptMapM rowDateKey combined with
  | error e => rw [hk] at h; simp at h
  | ok keyed =>
    rw [hk] at h
    simp only [Except.ok.injEq] at h
    subst h
    refine ⟨(List.insertionSort dayDesc keyed).map Prod.fst, ?_, ?_⟩
    · rw [List.pairwise_map]
      exact List.sorted_insertionSort dayDesc keyed
    · exact serialize_lookup_map _

/-- C2 (amended): iterating a merge output of update_bimonthly_data yields
records in DESCENDING (non-increasing), not ascending, order of parsed
start date: every normal return is the serialization of a non-increasing
sequence of start dates, each key being strftime of the start date
followed by strftime of the start date plus 14 days. -/
theorem merge_output_sorted_descending (bimonthly : List (Dict String))
    (new_data : List PyRow) (out : List PyRow)
    (h : update_bimonthly_data bimonthly new_data = Except.ok out) :
    ∃ ds : List Int, List.Pairwise (fun a b => b ≤ a) ds ∧
      out.map (fun r => dictLookup r "Date Range")
        = ds.map (fun d => some (Cell.str (formatDay d ++ "-" ++ formatDay (d + 14)))) := by
  unfold update_bimonthly_data at h
  cases h1 : exceptMapM parseBimonthlyRow bimonthly with
  | error e => rw [h1] at h; simp at h
  | ok parsed =>
    rw [h1] at h
    cases h2 : cutoffOf new_data with
    | error e => rw [h2] at h; simp at h
    | ok cutoff =>
      rw [h2] at h
      exact sortSerializeRows_descending _ _ h

/-- Counterexample to C2 as stated: with an empty existing file and two
new rows given in ascending start-date order (1970-01-01 = day 0, then
1970-01-21 = day 20), the merge returns them in DESCENDING order of
parsed start date — the later period is iterated first. -/
theorem merge_output_not_ascending_counterexample :
    update_bimonthly_data []
      [[("Date Range", Cell.date 0), ("Case Receipts", Cell.str "1")],
       [("Date Range", Cell.date 20), ("Case Receipts", Cell.str "2")]]
      = Except.ok
        [[("Date Range", Cell.str "1970-01-21-1970-02-04"),
          ("Case Receipts", Cell.str "2")],
         [("Date Range", Cell.str "1970-01-01-1970-01-15"),
          ("Case Receipts", Cell.str "1")]]
    ∧ parseYMD "1970-01-21" = some (1970, 1, 21)
    ∧ parseYMD "1970-01-01" = some (1970, 1, 1)
    ∧ civilToDays 1970 1 1 = 0 ∧ civilToDays 1970 1 21 = 20
    ∧ (0 : Int) < 20 := by
  refine ⟨by decide, by decide, by decide, by decide, by decide, by decide⟩

/-- Witness for the amended C2 theorem at a concrete run. -/
theorem merge_output_sorted_descending_witness :
    update_bimonthly_data []
      [[("Date Range", Cell.date 100), ("Case Receipts", Cell.str "3")],
       [("Date Range", Cell.date 50), ("Case Receipts", Cell.str "4")]]
      = Except.ok
        [[("Date Range", Cell.str "1970-04-11-1970-04-25"),
          ("Case Receipts", Cell.str "3")],
         [("Date Range", Cell.str "1970-02-20-1970-03-06"),
          ("Case Receipts", Cell.str "4")]]
    ∧ ∃ ds : List Int, List.Pairwise (fun a b => b ≤ a) ds ∧
        ([[("Date Range", Cell.str "1970-04-11-1970-04-25"),
           ("Case Receipts", Cell.str "3")],
          [("Date Range", Cell.str "1970-02-20-1970-03-06"),
           ("Case Receipts", Cell.str "4")]] : List PyRow).map
            (fun r => dictLookup r "Date Range")
          = ds.map (fun d =>
              some (Cell.str (formatDay d ++ "-" ++ formatDay (d + 14)))) :=
  ⟨by decide,
   merge_output_sorted_descending []
     [[("Date Range", Cell.date 100), ("Case Receipts", Cell.str "3")],
      [("Date Range", Cell.date 50), ("Case Receipts", Cell.str "4")]]
     [[("Date Range", Cell.str "1970-04-11-1970-04-25"),
       ("Case Receipts", Cell.str "3")],
      [("Date Range", Cell.str "1970-02-20-1970-03-06"),
       ("Case Receipts", Cell.str "4")]]
     (by decide)⟩

/-- C10: evaluation at a failing input.  Any existing bimonthly row makes
line 148 raise: row['Date Range'].split('-')[0] of an ISO range key is
only the year (here "2024"), which can never match '%Y-%m-%d', so the
one-year-window removal of lines 153-158 never executes when the existing
file has data — even though the very same function writes exactly this key
format at line 167.  The new-data row here is well formed (a datetime key,
day 19842 = 2024-04-29), so the failure is entirely the existing row's
date parse. -/
theorem bimonthly_merge_crashes_before_cutoff :
    update_bimonthly_data
      [[("Date Range", "2024-01-01-2024-01-14"), ("Case Receipts", "90")]]
      [[("Date Range", Cell.date 19842), ("Case Receipts", Cell.str "100")]]
      = Except.error (PyErr.valueError "time data does not match format")
    ∧ civilToDays 2024 4 29 = 19842 := by
  refine ⟨by decide, by decide⟩
